import Mathlib

/-!
Verification of the DateStamp backend service layer (settings, printer
discovery/control, log store, request bridge) against its natural-language
specification.  The TypeScript services are shallowly embedded as pure Lean
functions: file-system state is an association list from path to content,
shell-command outcomes are `Except` values passed in explicitly, and every
logging side effect relevant to the spec (the structured print-operation
records) is returned as data.
-/

namespace DateStamp

/-! ## JavaScript string primitives

The services lean on a handful of JS string operations (`includes`, `split`,
`trim`, `startsWith`, `indexOf`, `toUpperCase`).  They are modelled on
`List Char` by structural recursion so that every definition evaluates inside
the kernel. -/

/-- `needle.isPrefixOf hay || hay occurs later`: JS `String.prototype.includes`
(always true for the empty needle). -/
def containsSub (hay needle : List Char) : Bool :=
  needle.isPrefixOf hay ||
    match hay with
    | [] => false
    | _ :: t => containsSub t needle

/-- JS `s.includes(sub)`. -/
def jsIncludes (s sub : String) : Bool :=
  containsSub s.toList sub.toList

/-- JS `s.startsWith(p)`. -/
def jsStartsWith (s p : String) : Bool :=
  p.toList.isPrefixOf s.toList

/-- JS whitespace as used by `trim` and `\s`, restricted to the ASCII range
exercised by the repository's strings. -/
def isSpaceChar (c : Char) : Bool := c.isWhitespace

/-- JS `s.trim()` on the character list. -/
def trimChars (cs : List Char) : List Char :=
  ((cs.dropWhile isSpaceChar).reverse.dropWhile isSpaceChar).reverse

/-- JS `s.trim()`. -/
def jsTrim (s : String) : String := (trimChars s.toList).asString

/-- Auxiliary worker for `jsSplit`: splits on the non-empty separator
`s0 :: srest`, JS `String.prototype.split` semantics (leftmost,
non-overlapping, trailing empty pieces kept).  Recursion is structural on a
fuel argument so the definition evaluates inside the kernel; every step
shortens the scanned list by at least one character, so fuel equal to the
list's length never runs out and the fuel-exhausted equation is unreachable. -/
def jsSplitAux (s0 : Char) (srest : List Char) : Nat → List Char → List Char → List (List Char)
  | _, [], acc => [acc.reverse]
  | 0, l, acc => [acc.reverse ++ l]
  | fuel + 1, c :: rest, acc =>
    if (s0 :: srest).isPrefixOf (c :: rest) then
      acc.reverse :: jsSplitAux s0 srest fuel (rest.drop srest.length) []
    else
      jsSplitAux s0 srest fuel rest (c :: acc)

/-- JS `s.split(sep)`; for the empty separator JS splits into single
characters. -/
def jsSplit (s sep : String) : List String :=
  match sep.toList with
  | [] => s.toList.map Char.toString
  | s0 :: srest => (jsSplitAux s0 srest s.toList.length s.toList []).map List.asString

/-- JS `s.toUpperCase()` (ASCII range). -/
def jsToUpper (s : String) : String := (s.toList.map Char.toUpper).asString

/-- JS `s.indexOf(c)` for a single character, as a character index. -/
def charIndexOf (cs : List Char) (c : Char) : Option Nat :=
  match cs with
  | [] => none
  | c2 :: rest =>
    if c2 = c then some 0 else (charIndexOf rest c).map (· + 1)

/-- `path.join(a, b)` for the simple two-component joins the services use. -/
def pathJoin (a b : String) : String := a ++ "/" ++ b

/-! ## Log store (`LoggerService`, src/unnamed/part_005)

`getLogs` reads the log file, splits it into lines, keeps the last `limit`
lines (`lines.slice(-limit)`), parses each with the regular expression
`\[([\d-\s:.]+)\]\s*\[(\w+)\]\s*(.+)`, optionally filters by level, and
reverses the result. -/

structure LogEntry where
  timestamp : String
  level : String
  message : String
deriving DecidableEq, Repr

/-- Character class `[\d-\s:.]` of the log-line pattern. -/
def isTsChar (c : Char) : Bool :=
  c.isDigit || c = '-' || isSpaceChar c || c = ':' || c = '.'

/-- Character class `\w`. -/
def isWordChar (c : Char) : Bool := c.isAlphanum || c = '_'

/-- One attempt to match `\[([\d-\s:.]+)\]\s*\[(\w+)\]\s*(.+)` at the start of
`cs`.  Every quantified piece is a character class that excludes the literal
that follows it, so the regex engine's behaviour is the greedy scan coded
here; the only backtracking JS performs is `\s*` yielding one character back
to `(.+)` when the tail is all whitespace. -/
def logMatchAt (cs : List Char) : Option (String × String × String) :=
  match cs with
  | '[' :: r1 =>
    let ts := r1.takeWhile isTsChar
    if ts.isEmpty then none else
    match r1.drop ts.length with
    | ']' :: r2 =>
      match r2.dropWhile isSpaceChar with
      | '[' :: r4 =>
        let lvl := r4.takeWhile isWordChar
        if lvl.isEmpty then none else
        match r4.drop lvl.length with
        | ']' :: r5 =>
          let msg := r5.dropWhile isSpaceChar
          if ¬ msg.isEmpty then some (ts.asString, lvl.asString, msg.asString)
          else
            match r5.reverse with
            | [] => none
            | c :: _ => some (ts.asString, lvl.asString, c.toString)
        | _ => none
      | _ => none
    | _ => none
  | _ => none

/-- Leftmost match of the log-line pattern (JS `String.prototype.match` with
an unanchored regex). -/
def findLogMatch : List Char → Option (String × String × String)
  | [] => none
  | c :: rest =>
    match logMatchAt (c :: rest) with
    | some m => some m
    | none => findLogMatch rest

/-- `LoggerService.getLogs(limit, level?)` applied to the log file's content.
`lines.slice(-limit)` keeps the last `limit` lines (all of them when
`limit = 0`, since JS `slice(-0)` is `slice(0)`); the level filter is applied
afterwards, line by line. -/
def getLogs (content : String) (limit : Nat) (level : Option String) : List LogEntry :=
  let lines := (jsSplit content "\n").filter (fun l => jsTrim l != "")
  let sliced := if limit = 0 then lines else lines.drop (lines.length - limit)
  let levelFilter := level.map jsToUpper
  let logs := sliced.filterMap fun line =>
    match findLogMatch line.toList with
    | some (ts, lvl, msg) =>
      match levelFilter with
      | none => some ⟨ts, lvl, jsTrim msg⟩
      | some f =>
        if f = "" then some ⟨ts, lvl, jsTrim msg⟩
        else if lvl = f then some ⟨ts, lvl, jsTrim msg⟩ else none
    | none => none
  logs.reverse

/-! ## Printer discovery (`PrinterService.listPrinters`,
src/src/main/services/printer.ts lines 36-201)

Shell-command outcomes are passed in as `Except` values: `.ok stdout` models a
resolved `execAsync` call, `.error msg` a rejected one (non-zero exit).  Both
`lpstat` failures are swallowed by inner `catch` blocks that only log, leaving
the respective output string empty. -/

structure Printer where
  name : String
  status : String
  isDefault : Bool
deriving DecidableEq, Repr

/-- English status phrases of the `printer ...` branch (lines 90-91). -/
def englishStatus (line : String) : String :=
  if jsIncludes line "is idle" then "idle"
  else if jsIncludes line "is printing" then "printing"
  else "unknown"

/-- German status phrases (lines 113-115 and 135-137, applied to the whole
line). -/
def germanStatus (line : String) : String :=
  if jsIncludes line "ist inaktiv" then "idle"
  else if jsIncludes line "druckt" then "printing"
  else if jsIncludes line "ist offline" then "offline"
  else "unknown"

/-- One fallback regex of the form `open([^close]+)close` (lines 122-128):
leftmost occurrence of the opening character followed by at least one
character other than the closing character and then the closing character.
The capture class excludes exactly the closing literal, so the greedy scan
below is the regex engine's behaviour. -/
def matchQuotePat (openC closeC : Char) : List Char → Option String
  | [] => none
  | c :: rest =>
    if c = openC then
      let cap := rest.takeWhile (fun x => x ≠ closeC)
      if cap.isEmpty then matchQuotePat openC closeC rest
      else
        match rest.drop cap.length with
        | c2 :: _ =>
          if c2 = closeC then some cap.asString else matchQuotePat openC closeC rest
        | [] => matchQuotePat openC closeC rest
    else matchQuotePat openC closeC rest

/-- The fallback quote patterns, in source order (lines 122-128): ASCII double
quotes, ASCII single quotes, U+201E with an ASCII double-quote close,
guillemets, U+201A with an ASCII single-quote close.  First match wins. -/
def fallbackName (ad : List Char) : String :=
  match matchQuotePat '"' '"' ad with
  | some n => n
  | none =>
    match matchQuotePat '\'' '\'' ad with
    | some n => n
    | none =>
      match matchQuotePat '„' '"' ad with
      | some n => n
      | none =>
        match matchQuotePat '«' '»' ad with
        | some n => n
        | none => (matchQuotePat '‚' '\'' ad).getD ""

/-- Name extraction of the `Drucker ...` branch (lines 96-147), applied to the
line with its 8-character `Drucker ` prefix removed: the primary path looks
for the opening quote U+201E and a closing ASCII `"` via `indexOf`; if either
is missing or mis-ordered, the fallback patterns are tried in turn. -/
def germanName (ad : List Char) : String :=
  match charIndexOf ad '„', charIndexOf ad '"' with
  | some oi, some ci =>
    if oi < ci then ((ad.drop (oi + 1)).take (ci - (oi + 1))).asString
    else fallbackName ad
  | _, _ => fallbackName ad

/-- The name of the English branch, `line.split(' ')[1]` (JS yields the empty
string in effect when the part is missing or empty, and the entry is then not
pushed). -/
def englishName (line : String) : String :=
  (jsSplit line " ").getD 1 ""

/-- Per-line printer parsing of `listPrinters` (lines 80-158): an entry is
pushed only when the extracted name is non-empty. -/
def parsePrinterLine (line : String) : Option (String × String) :=
  if jsStartsWith line "printer " then
    if englishName line != "" then some (englishName line, englishStatus line)
    else none
  else if jsStartsWith line "Drucker " then
    if germanName (line.toList.drop 8) != "" then
      some (germanName (line.toList.drop 8), germanStatus line)
    else none
  else none

/-- Default-printer detection from the `lpstat -d` output (lines 66-76): three
marker phrasings, the text after the first marker occurrence trimmed.  An
empty output leaves the default name empty. -/
def parseDefaultPrinter (defaultOutput : String) : String :=
  if defaultOutput = "" then ""
  else if jsIncludes defaultOutput "system default destination:" then
    jsTrim ((jsSplit defaultOutput "system default destination:").getD 1 "")
  else if jsIncludes defaultOutput "Standardzielort:" then
    jsTrim ((jsSplit defaultOutput "Standardzielort:").getD 1 "")
  else if jsIncludes defaultOutput "Standardziel:" then
    jsTrim ((jsSplit defaultOutput "Standardziel:").getD 1 "")
  else ""

/-- The printers parsed from the two `lpstat` outputs before any fallback
(lines 44-162): a failed command leaves its output empty, non-blank lines are
parsed one by one, and each entry is marked default iff its name equals the
detected default printer. -/
def parsedPrinters (lpstatP lpstatD : Except String String) : List Printer :=
  let printersOutput := match lpstatP with | .ok o => o | .error _ => ""
  let defaultOutput := match lpstatD with | .ok o => o | .error _ => ""
  let lines := (jsSplit printersOutput "\n").filter (fun l => jsTrim l != "")
  let defaultPrinter := parseDefaultPrinter defaultOutput
  (lines.filterMap parsePrinterLine).map
    (fun p => Printer.mk p.1 p.2 (p.1 == defaultPrinter))

/-- The placeholder entry returned when no printer could be found
(lines 181-187). -/
def noPrintersSentinel : Printer :=
  ⟨"No printers detected", "unknown", false⟩

/-- The placeholder entry of the outer `catch` (lines 195-199). -/
def errorSentinel : Printer :=
  ⟨"Error detecting printers", "error", false⟩

/-- The entry the hardcoded probe `lpstat -p "Zebra_Technologies_ZTC_GK420d"`
contributes when parsing yielded nothing (lines 168-179): pushed only when
the probe resolves with non-empty output not containing `does not exist`; a
rejected probe contributes nothing (its `catch` is empty). -/
def zebraProbeResult (zebraProbe : Except String String) : List Printer :=
  match zebraProbe with
  | .ok statusOut =>
    if statusOut != "" && !(jsIncludes statusOut "does not exist") then
      [⟨"Zebra_Technologies_ZTC_GK420d",
        if jsIncludes statusOut "is idle" then "idle" else "unknown", true⟩]
    else []
  | .error _ => []

/-- `listPrinters()` as a function of the three shell-command outcomes
(`lpstat -p`, `lpstat -d`, and the hardcoded Zebra probe of lines 168-179).
When parsing yields zero printers the Zebra probe is consulted; if it also
yields nothing the no-printers sentinel is returned.  The outer `catch`
(which alone returns `errorSentinel`) is unreachable here because every
command failure is already handled by an inner `catch`. -/
def listPrinters (lpstatP lpstatD zebraProbe : Except String String) : List Printer :=
  if (parsedPrinters lpstatP lpstatD).isEmpty then
    if (zebraProbeResult zebraProbe).isEmpty then [noPrintersSentinel]
    else zebraProbeResult zebraProbe
  else parsedPrinters lpstatP lpstatD

/-- `PrinterService.getPrinterStatus(name)` (lines 312-323) as a function of
the `lpstat -p "<name>"` outcome: its own phrase chain checks `is idle`,
`is printing` and `disabled`, and the `catch` returns the string `error`. -/
def getPrinterStatus (execResult : Except String String) : String :=
  match execResult with
  | .ok stdout =>
    if jsIncludes stdout "is idle" then "idle"
    else if jsIncludes stdout "is printing" then "printing"
    else if jsIncludes stdout "disabled" then "disabled"
    else "unknown"
  | .error _ => "error"

/-! ## Print operations (`printLabel`, `testPrint`,
src/src/main/services/printer.ts lines 203-300)

The file system is an association list from path to content; the structured
print-operation records emitted through `logger.logPrintOperation` are
returned as data so the logging obligations can be stated. -/

abbrev FS := List (String × String)

/-- `fs.existsSync` / `fs.readFileSync` view of the file system. -/
def fsLookup : FS → String → Option String
  | [], _ => none
  | (p, c) :: rest, q => if p = q then some c else fsLookup rest q

/-- `fs.writeFileSync`: replaces the binding of the path, or appends it. -/
def fsWrite : FS → String → String → FS
  | [], p, c => [(p, c)]
  | (p', c') :: rest, p, c =>
    if p' = p then (p', c) :: rest else (p', c') :: fsWrite rest p c

/-- `fs.unlinkSync`. -/
def fsRemove (fs : FS) (p : String) : FS :=
  fs.filter (fun e => e.1 != p)

structure PrintResult where
  success : Bool
  message : String
  jobId : Option String := none
  errorCode : Option String := none
deriving DecidableEq, Repr

/-- One structured record written by `logger.logPrintOperation` (printer,
copies, success, error detail). -/
structure PrintOp where
  printer : String
  copies : Nat
  success : Bool
  errorDetail : Option String := none
deriving DecidableEq, Repr

structure PrintOutcome where
  result : PrintResult
  printOps : List PrintOp
  fs : FS
deriving DecidableEq, Repr

/-- The character class `[\w-]` of the job-id pattern. -/
def isJobIdChar (c : Char) : Bool := c.isAlphanum || c = '_' || c = '-'

/-- `stdout.match(/request id is ([\w-]+)/)`: leftmost occurrence of the
literal followed by at least one `[\w-]` character. -/
def extractJobId : List Char → Option String
  | [] => none
  | c :: rest =>
    if "request id is ".toList.isPrefixOf (c :: rest) then
      let cap := ((c :: rest).drop 14).takeWhile isJobIdChar
      if cap.isEmpty then extractJobId rest else some cap.asString
    else extractJobId rest

/-- First match of `/\d{2}\.\d{2}\./` starts at this position. -/
def dateAt : List Char → Bool
  | a :: b :: '.' :: c :: d :: '.' :: _ =>
    a.isDigit && b.isDigit && c.isDigit && d.isDigit
  | _ => false

/-- `data.replace(/\d{2}\.\d{2}\./, repl)`: only the leftmost match is
replaced (the six matched characters). -/
def replaceFirstDate (repl : List Char) : List Char → List Char
  | [] => []
  | c :: rest =>
    if dateAt (c :: rest) then repl ++ (c :: rest).drop 6
    else c :: replaceFirstDate repl rest

/-- The message of the error `fs.readFileSync` throws for a missing file. -/
def enoentMessage (p : String) : String :=
  "ENOENT: no such file or directory, open " ++ p

/-- Environment of one `printLabel` call: the settings reads (printer name,
label path, `label.autoUpdateDate` — the settings getters never throw), the
current date `DD.MM.` and the outcome of the `lp` command as
`(stdout, stderr)` or a rejection. -/
structure PrintEnv where
  printerName : String
  labelPath : String
  autoUpdateDate : Bool
  today : String
  execPrint : Except String (String × String)
deriving Repr

/-- `PrinterService.printLabel(copies)` (lines 203-262).  With
`autoUpdateDate` set, `updateLabelDate` runs before the existence check and
rethrows the `readFileSync` error for a missing file, which the outer `catch`
turns into `PRINT_ERROR` after logging one failed print operation.  Otherwise
a missing file yields `FILE_NOT_FOUND`; a rejected `lp` command yields
`PRINT_ERROR`; a non-empty stderr without the acceptance phrase yields
`PRINT_FAILED`; else the job id is extracted from stdout and success is
logged. -/
def printLabel (env : PrintEnv) (fs : FS) (copies : Nat) : PrintOutcome :=
  let step : Except String FS :=
    if env.autoUpdateDate then
      match fsLookup fs env.labelPath with
      | none => .error (enoentMessage env.labelPath)
      | some data =>
        .ok (fsWrite fs env.labelPath
              (replaceFirstDate env.today.toList data.toList).asString)
    else .ok fs
  match step with
  | .error emsg =>
    { result := { success := false, message := emsg, errorCode := some "PRINT_ERROR" },
      printOps := [⟨env.printerName, copies, false, some emsg⟩],
      fs := fs }
  | .ok fs1 =>
    match fsLookup fs1 env.labelPath with
    | none =>
      { result := { success := false,
                    message := "Label file not found: " ++ env.labelPath,
                    errorCode := some "FILE_NOT_FOUND" },
        printOps := [⟨env.printerName, copies, false, some "FILE_NOT_FOUND"⟩],
        fs := fs1 }
    | some _ =>
      match env.execPrint with
      | .error emsg =>
        { result := { success := false, message := emsg, errorCode := some "PRINT_ERROR" },
          printOps := [⟨env.printerName, copies, false, some emsg⟩],
          fs := fs1 }
      | .ok (stdout, stderr) =>
        if stderr != "" && !(jsIncludes stderr "request id is") then
          { result := { success := false,
                        message := "Print failed: " ++ stderr,
                        errorCode := some "PRINT_FAILED" },
            printOps := [⟨env.printerName, copies, false, some stderr⟩],
            fs := fs1 }
        else
          { result := { success := true,
                        message := "Printed " ++ toString copies ++ " label(s) successfully",
                        jobId := extractJobId stdout.toList },
            printOps := [⟨env.printerName, copies, true, none⟩],
            fs := fs1 }

/-- Environment of one `testPrint` call: the target printer, the
`toLocaleString` timestamp, the temp directory and the `lp` outcome. -/
structure TestPrintEnv where
  printerName : String
  timestamp : String
  tempDir : String
  execPrint : Except String (String × String)
deriving Repr

/-- The ZPL payload `testPrint` synthesizes (lines 266-270). -/
def testLabelContent (printerName timestamp : String) : String :=
  "^XA\n^FO50,50^A0N,40,40^FDTest Print^FS\n^FO50,100^A0N,30,30^FD" ++
    timestamp ++ "^FS\n^FO50,150^A0N,30,30^FDPrinter: " ++ printerName ++ "^FS\n^XZ"

/-- The temporary file path `testPrint` writes to. -/
def tempPathOf (env : TestPrintEnv) : String :=
  pathJoin env.tempDir "test-label.zpl"

/-- `PrinterService.testPrint(printerName)` (lines 264-300): writes the temp
file, runs `lp`, and calls `fs.unlinkSync` only after the command resolves —
a rejected command jumps straight to the `catch`, leaving the temp file in
place.  No execution path calls `logger.logPrintOperation`. -/
def testPrint (env : TestPrintEnv) (fs : FS) : PrintOutcome :=
  let tempPath := tempPathOf env
  let fs1 := fsWrite fs tempPath (testLabelContent env.printerName env.timestamp)
  match env.execPrint with
  | .error emsg =>
    { result := { success := false, message := emsg, errorCode := some "TEST_PRINT_ERROR" },
      printOps := [],
      fs := fs1 }
  | .ok (_, stderr) =>
    let fs2 := fsRemove fs1 tempPath
    if stderr != "" && !(jsIncludes stderr "request id is") then
      { result := { success := false,
                    message := "Test print failed: " ++ stderr,
                    errorCode := some "TEST_PRINT_FAILED" },
        printOps := [],
        fs := fs2 }
    else
      { result := { success := true, message := "Test print sent successfully" },
        printOps := [],
        fs := fs2 }

/-! ## Request bridge print handlers (`PrinterHandler`,
src/src/main/ipc/printer-handler.ts lines 73-112) -/

structure PrinterResponse where
  success : Bool
  data : Option PrintResult := none
  error : Option String := none
deriving DecidableEq, Repr

/-- The success/error envelope `handlePrint` builds from a print result. -/
def printEnvelope (r : PrintResult) : PrinterResponse :=
  { success := r.success, data := some r, error := r.errorCode }

/-- The plain-string reply of the legacy channel. -/
def legacyReply (r : PrintResult) : String :=
  if r.success then r.message else "Error: " ++ r.message

/-- `handlePrint` (`printer:print`, lines 73-91): one call to
`printerService.printLabel(copies)`, wrapped in the envelope.  Alongside the
reply the print-operation records and resulting file system are returned so
the handler's printing effect can be compared. -/
def handlePrint (env : PrintEnv) (fs : FS) (copies : Nat) :
    PrinterResponse × List PrintOp × FS :=
  let o := printLabel env fs copies
  (printEnvelope o.result, o.printOps, o.fs)

/-- `handleLegacyPrint` (lines 93-112): the same single call to
`printerService.printLabel(copies)`, replying with a plain string. -/
def handleLegacyPrint (env : PrintEnv) (fs : FS) (copies : Nat) :
    String × List PrintOp × FS :=
  let o := printLabel env fs copies
  (legacyReply o.result, o.printOps, o.fs)

/-! ## Settings store (`SettingsService`, src/src/main/services/settings.ts)

The persisted record and the partial updates are untyped JS objects walked by
the private `deepMerge`, so they are embedded as a JSON-like value type.
`undefined` stands for the JS undefined value (a missing member access). -/

mutual
inductive JVal where
  | undefined : JVal
  | str : String → JVal
  | bool : Bool → JVal
  | num : Int → JVal
  | obj : JFields → JVal
deriving DecidableEq

inductive JFields where
  | nil : JFields
  | cons : String → JVal → JFields → JFields
deriving DecidableEq
end

/-- Field list of an object literal, written as a plain list. -/
def JFields.ofList : List (String × JVal) → JFields
  | [] => .nil
  | (k, v) :: rest => .cons k v (JFields.ofList rest)

/-- First binding of a key in an object's field list. -/
def lookupJ : JFields → String → Option JVal
  | .nil, _ => none
  | .cons k' v rest, k => if k' = k then some v else lookupJ rest k

/-- JS property assignment `output[key] = value` on an object literal:
an existing key keeps its position, a new key is appended. -/
def setKey : JFields → String → JVal → JFields
  | .nil, k, v => .cons k v .nil
  | .cons k' v' rest, k, v =>
    if k' = k then .cons k' v rest else .cons k' v' (setKey rest k v)

/-- `typeof item === 'object'` and not an array and truthy
(`SettingsService.isObject`, lines 160-162). -/
def isObjectJ : JVal → Bool
  | .obj _ => true
  | _ => false

/-- Indexed character fields, `{...'ab'} = {'0': 'a', '1': 'b'}`. -/
def charFields : Nat → List Char → JFields
  | _, [] => .nil
  | i, c :: rest => .cons (toString i) (.str c.toString) (charFields (i + 1) rest)

/-- The own enumerable fields the spread operator `{...v}` copies: an object
contributes its fields, a string its indexed characters, any other primitive
nothing. -/
def spreadFields : JVal → JFields
  | .obj fs => fs
  | .str s => charFields 0 s.toList
  | _ => .nil

/-- `{...a, ...b}` / repeated JS assignment of `b`'s fields over `a`. -/
def spread2 (a : JFields) : JFields → JFields
  | .nil => a
  | .cons k v rest => spread2 (setKey a k v) rest

mutual
/-- `SettingsService.deepMerge(target, source)` (lines 142-158): start from
`{...target}`; when both arguments are objects, walk the source's keys in
order — an object-valued source key merges recursively when the key exists in
the target and is copied outright otherwise, a non-object source value
replaces outright. -/
def deepMerge : JVal → JVal → JVal
  | .obj tf, .obj sf => .obj (mergeLoop tf tf sf)
  | t, _ => .obj (spreadFields t)

/-- The `Object.keys(source).forEach` loop of `deepMerge`: `tf` is the
original target's field list (consulted by the `key in target` test and for
the recursive merge), `acc` the output being built. -/
def mergeLoop (tf acc : JFields) : JFields → JFields
  | .nil => acc
  | .cons k v rest =>
    let acc' :=
      match v with
      | .obj _ =>
        match lookupJ tf k with
        | none => setKey acc k v
        | some tv => setKey acc k (deepMerge tv v)
      | _ => setKey acc k v
    mergeLoop tf acc' rest
end

/-- The hardcoded `DEFAULT_SETTINGS` record (lines 26-41), parameterized by
the OS documents directory used for the default label path. -/
def defaultFields (documentsPath : String) : JFields :=
  .ofList
    [("printer", .obj (.ofList [("name", .str "Zebra_Technologies_ZTC_GK420d"),
                                ("isManualEntry", .bool false)])),
     ("security", .obj (.ofList [("pin", .str "1234")])),
     ("label", .obj (.ofList [("filePath", .str (pathJoin documentsPath "label.zpl")),
                              ("autoUpdateDate", .bool true)])),
     ("ui", .obj (.ofList [("showStatusBar", .bool true)]))]

/-- `SettingsService.getAll()` (lines 61-69) as a function of the storage
read: `{...DEFAULT_SETTINGS, ...allSettings}` on success, pure defaults when
the read throws. -/
def getAllSettings (documentsPath : String) (store : Except String JVal) : JVal :=
  match store with
  | .ok v => .obj (spread2 (defaultFields documentsPath) (spreadFields v))
  | .error _ => .obj (defaultFields documentsPath)

/-- `SettingsService.update(updates)` (lines 95-104): the record persisted by
the single `settings.set(merged)` call, namely the deep merge of the partial
record over `getAll()`. -/
def settingsUpdate (documentsPath : String) (store : Except String JVal)
    (updates : JVal) : JVal :=
  deepMerge (getAllSettings documentsPath store) updates

/-- The partial record `{label: {autoUpdateDate: false}}`. -/
def autoUpdateFalsePatch : JVal :=
  .obj (.cons "label" (.obj (.cons "autoUpdateDate" (.bool false) .nil)) .nil)

/-- Member access `v.k`: `undefined` on anything but an object with the key. -/
def memberJ (v : JVal) (k : String) : JVal :=
  match v with
  | .obj fs => (lookupJ fs k).getD .undefined
  | _ => .undefined

/-- `DEFAULT_SETTINGS[key]`. -/
def defaultFor (documentsPath key : String) : JVal :=
  (lookupJ (defaultFields documentsPath) key).getD .undefined

/-- `SettingsService.get(key)` (lines 71-79) as a function of the per-key
storage read: the stored value when the read succeeds and yields one
(`value ?? DEFAULT_SETTINGS[key]`), the default otherwise — read errors are
caught and swallowed. -/
def getSetting (documentsPath key : String) (read : Except String JVal) : JVal :=
  match read with
  | .ok .undefined => defaultFor documentsPath key
  | .ok v => v
  | .error _ => defaultFor documentsPath key

/-- JS strict equality `v === s` against a string literal. -/
def strictEqStr (v : JVal) (s : String) : Bool :=
  match v with
  | .str t => t == s
  | _ => false

/-- `SettingsService.validatePin(pin)` (lines 115-123): reads the security
record through `get` (which never throws) and compares `security.pin === pin`;
its own `catch` is therefore unreachable. -/
def validatePin (documentsPath : String) (read : Except String JVal)
    (pin : String) : Bool :=
  strictEqStr (memberJ (getSetting documentsPath "security" read) "pin") pin

/-! ## Concrete instances used by witnesses and counterexamples -/

/-- The keys of a field list in order, used to state well-formedness of a
stored record. -/
def keysJ : JFields → List String
  | .nil => []
  | .cons k _ rest => k :: keysJ rest

/-- A log file with five parseable entries: the two ERROR entries first, the
three INFO entries last. -/
def logSampleErrorsFirst : String :=
  "[2025-01-01 10:00:00.000] [ERROR] alpha\n" ++
  "[2025-01-01 10:01:00.000] [ERROR] beta\n" ++
  "[2025-01-01 10:02:00.000] [INFO] one\n" ++
  "[2025-01-01 10:03:00.000] [INFO] two\n" ++
  "[2025-01-01 10:04:00.000] [INFO] three"

/-- The same five entries with the two ERROR entries as the final two lines. -/
def logSampleErrorsLast : String :=
  "[2025-01-01 10:00:00.000] [INFO] one\n" ++
  "[2025-01-01 10:01:00.000] [INFO] two\n" ++
  "[2025-01-01 10:02:00.000] [INFO] three\n" ++
  "[2025-01-01 10:03:00.000] [ERROR] alpha\n" ++
  "[2025-01-01 10:04:00.000] [ERROR] beta"

/-- A concrete full stored settings record. -/
def storedLabelExample : JFields :=
  .ofList [("filePath", .str "/home/user/Documents/label.zpl"),
           ("autoUpdateDate", .bool true)]

/-- A concrete full stored settings record (all four top-level keys present). -/
def storedFsExample : JFields :=
  .ofList [("printer", .obj (.ofList [("name", .str "HP_LaserJet"),
                                      ("isManualEntry", .bool true)])),
           ("security", .obj (.ofList [("pin", .str "4321")])),
           ("label", .obj storedLabelExample),
           ("ui", .obj (.ofList [("showStatusBar", .bool false)]))]

/-! ## Helper lemmas -/

theorem fsLookup_fsWrite_self (fs : FS) (p c : String) :
    fsLookup (fsWrite fs p c) p = some c := by
  induction fs with
  | nil => simp [fsWrite, fsLookup]
  | cons e rest ih =>
    by_cases h : e.1 = p
    · simp [fsWrite, fsLookup, h]
    · simp [fsWrite, fsLookup, h, ih]

theorem fsLookup_fsRemove_self (fs : FS) (p : String) :
    fsLookup (fsRemove fs p) p = none := by
  induction fs with
  | nil => simp [fsRemove, fsLookup]
  | cons e rest ih =>
    by_cases h : e.1 = p
    · simpa [fsRemove, h] using ih
    · simpa [fsRemove, fsLookup, h] using ih

theorem lookupJ_setKey_self : (fs : JFields) → (k : String) → (v : JVal) →
    lookupJ (setKey fs k v) k = some v
  | .nil, k, v => by simp [setKey, lookupJ]
  | .cons k0 v0 rest, k, v => by
    by_cases h : k0 = k
    · simp [setKey, lookupJ, h]
    · simp [setKey, lookupJ, h, lookupJ_setKey_self rest k v]

theorem lookupJ_setKey_ne : (fs : JFields) → (k k' : String) → (v : JVal) →
    k' ≠ k → lookupJ (setKey fs k v) k' = lookupJ fs k'
  | .nil, k, k', v, h => by
    simp [setKey, lookupJ, Ne.symm h]
  | .cons k0 v0 rest, k, k', v, h => by
    by_cases h0 : k0 = k
    · subst h0
      simp [setKey, lookupJ, Ne.symm h]
    · by_cases h1 : k0 = k'
      · subst h1
        simp [setKey, lookupJ, h0]
      · simp [setKey, lookupJ, h0, h1, lookupJ_setKey_ne rest k k' v h]

theorem lookupJ_spread2_notin : (a b : JFields) → (k : String) →
    k ∉ keysJ b → lookupJ (spread2 a b) k = lookupJ a k
  | _, .nil, _, _ => by simp [spread2]
  | a, .cons k0 v0 rest, k, h => by
    simp only [keysJ, List.mem_cons, not_or] at h
    rw [spread2, lookupJ_spread2_notin _ rest k h.2,
      lookupJ_setKey_ne a k0 k v0 h.1]

theorem lookupJ_spread2_mem : (a b : JFields) → (k : String) → (v : JVal) →
    lookupJ b k = some v → (keysJ b).Nodup →
    lookupJ (spread2 a b) k = some v
  | _, .nil, _, _, hb, _ => by simp [lookupJ] at hb
  | a, .cons k0 v0 rest, k, v, hb, hnd => by
    simp only [keysJ, List.nodup_cons] at hnd
    by_cases h0 : k0 = k
    · subst h0
      have hv : v0 = v := by simpa [lookupJ] using hb
      subst hv
      rw [spread2, lookupJ_spread2_notin _ rest k0 hnd.1, lookupJ_setKey_self]
    · simp only [lookupJ, if_neg h0] at hb
      rw [spread2, lookupJ_spread2_mem _ rest k v hb hnd.2]

theorem englishStatus_mem (line : String) :
    englishStatus line ∈ (["idle", "printing", "unknown"] : List String) := by
  unfold englishStatus
  split_ifs <;> simp

theorem germanStatus_mem (line : String) :
    germanStatus line ∈ (["idle", "printing", "offline", "unknown"] : List String) := by
  unfold germanStatus
  split_ifs <;> simp

theorem englishStatus_ne_error (line : String) : englishStatus line ≠ "error" := by
  unfold englishStatus
  split_ifs <;> decide

theorem germanStatus_ne_error (line : String) : germanStatus line ≠ "error" := by
  unfold germanStatus
  split_ifs <;> decide

theorem parsePrinterLine_status_ne_error (line n s : String)
    (h : parsePrinterLine line = some (n, s)) : s ≠ "error" := by
  unfold parsePrinterLine at h
  split_ifs at h <;>
    simp only [Option.some.injEq, Prod.mk.injEq, reduceCtorEq] at h
  · exact h.2 ▸ englishStatus_ne_error line
  · exact h.2 ▸ germanStatus_ne_error line

theorem getLogs_length_le (content : String) (limit : Nat) (lv : Option String)
    (h : limit ≠ 0) : (getLogs content limit lv).length ≤ limit := by
  simp only [getLogs, if_neg h]
  rw [List.length_reverse]
  refine le_trans (List.length_filterMap_le _ _) ?_
  rw [List.length_drop]
  omega

/-! ## Claim theorems -/

/-- C8 (amended): on a successful status query `getPrinterStatus` returns a
member of {idle, printing, disabled, unknown} — its own phrase chain, which
also checks `disabled` (a phrase `listPrinters`' line parser never checks)
and can never yield `offline` — while a failed query returns the string
`error`, which lies outside the spec's status enum. -/
theorem C8_printer_status_amended (out e : String) :
    getPrinterStatus (Except.ok out) ∈
      (["idle", "printing", "disabled", "unknown"] : List String) ∧
    getPrinterStatus (Except.error e) = "error" := by
  constructor
  · simp only [getPrinterStatus]
    split_ifs <;> simp
  · rfl

/-- C8 counterexample: when the status command fails, `getPrinterStatus`
returns `error`, which is not a member of the claimed status enum
{idle, printing, offline, disabled, unknown}. -/
theorem C8_counterexample :
    getPrinterStatus (Except.error "Command failed: lpstat -p") = "error" ∧
    "error" ∉ (["idle", "printing", "offline", "disabled", "unknown"] : List String) := by
  decide

/-- C10: when the per-key storage read fails, `get('security')` falls back to
the hardcoded default record, so `validatePin` compares the candidate against
the default PIN `1234`: exactly the candidate `1234` validates, every other
candidate is rejected, and no error escapes. -/
theorem C10_validatePin_fallback (documentsPath e pin : String) :
    validatePin documentsPath (Except.error e) pin = true ↔ pin = "1234" := by
  have h : validatePin documentsPath (Except.error e) pin = ("1234" == pin) := rfl
  rw [h, beq_iff_eq, eq_comm]

/-- C9: the legacy fire-and-forget channel and the `printer:print` operation
invoke the same underlying `printLabel(copies)` call, so their printing
effect (the structured print-operation records and the resulting file system)
is identical; they differ only in reply shape — the success/error envelope
versus the plain-string message, both functions of that same print result. -/
theorem C9_legacy_print_equivalence (env : PrintEnv) (fs : FS) (copies : Nat) :
    (handleLegacyPrint env fs copies).2 = (handlePrint env fs copies).2 ∧
    (handlePrint env fs copies).2 =
      ((printLabel env fs copies).printOps, (printLabel env fs copies).fs) ∧
    (handlePrint env fs copies).1 = printEnvelope (printLabel env fs copies).result ∧
    (handleLegacyPrint env fs copies).1 = legacyReply (printLabel env fs copies).result :=
  ⟨rfl, rfl, rfl, rfl⟩

/-- C5: behaviour of the printer-line parser at the claim's inputs.  The
English line parses as claimed.  The German line whose name is wrapped in the
typographic pair U+201E/U+201C — the pair the code's own comment designates
and the pair German `lpstat` emits — is NOT parsed: the code's `closeQuote`
constant is a plain ASCII `"`, so the primary path and all five fallback
patterns fail and the line yields no printer entry.  A German line closed by
an ASCII `"` does parse, and the fallback patterns fire in source order
(ASCII double quotes, ASCII single quotes, then guillemets, so a single-quoted
name beats a guillemet-quoted one). -/
theorem C5_printer_line_parsing :
    parsePrinterLine "printer HP_LaserJet is idle.  enabled since Mon 01 Jan 2024" =
      some ("HP_LaserJet", "idle") ∧
    parsePrinterLine "Drucker „Zebra_GK420d“ ist inaktiv. Aktiviert seit Mo 01 Jan 2024" =
      none ∧
    parsePrinterLine "Drucker „Zebra_GK420d\" ist inaktiv. Aktiviert seit Mo 01 Jan 2024" =
      some ("Zebra_GK420d", "idle") ∧
    parsePrinterLine "Drucker \"Zebra_GK420d\" ist inaktiv." =
      some ("Zebra_GK420d", "idle") ∧
    parsePrinterLine "Drucker 'Zebra_GK420d' ist offline." =
      some ("Zebra_GK420d", "offline") ∧
    parsePrinterLine "Drucker «Zebra_GK420d» druckt gerade." =
      some ("Zebra_GK420d", "printing") ∧
    parsePrinterLine "Drucker «AAA» 'BBB' ist inaktiv." =
      some ("BBB", "idle") := by
  set_option maxRecDepth 100000 in decide

/-- C4 counterexample: a log file whose parseable lines are exactly 2 ERROR
entries followed by 3 INFO entries.  `getLogs(2, "ERROR")` keeps only the
last 2 lines before filtering, so it returns the empty list rather than the
two ERROR entries the claim demands. -/
theorem C4_counterexample :
    (getLogs logSampleErrorsFirst 1000 none).map (fun entry => entry.level) =
      ["INFO", "INFO", "INFO", "ERROR", "ERROR"] ∧
    getLogs logSampleErrorsFirst 2 (some "ERROR") = [] := by
  set_option maxRecDepth 100000 in decide

/-- C4 (amended): `getLogs(2, "ERROR")` keeps the last 2 parsed lines first
and filters by level afterwards, so it returns exactly the ERROR entries
among the final 2 lines, most-recent-first: all 2 of them when the ERROR
entries are the last two lines of the file, none when both ERROR entries
occur earlier; its result never exceeds 2 entries. -/
theorem C4_getLogs_amended :
    getLogs logSampleErrorsLast 2 (some "ERROR") =
      [⟨"2025-01-01 10:04:00.000", "ERROR", "beta"⟩,
       ⟨"2025-01-01 10:03:00.000", "ERROR", "alpha"⟩] ∧
    (getLogs logSampleErrorsLast 1000 none).map (fun entry => entry.level) =
      ["ERROR", "ERROR", "INFO", "INFO", "INFO"] ∧
    ∀ content lv, (getLogs content 2 (some lv)).length ≤ 2 := by
  refine ⟨by set_option maxRecDepth 100000 in decide,
    by set_option maxRecDepth 100000 in decide,
    fun content lv => getLogs_length_le content 2 (some lv) (by decide)⟩

/-- C1 counterexample: with auto-date-update enabled and the label file
absent, `updateLabelDate` runs before the existence check, its `readFileSync`
throws, and the outer catch returns `PRINT_ERROR` — not the `FILE_NOT_FOUND`
the claim asserts for every configuration. -/
theorem C1_counterexample :
    (printLabel ⟨"Zebra_GK420d", "/home/user/Documents/label.zpl", true, "11.10.",
        Except.ok ("request id is Zebra_GK420d-1 (1 file(s))", "")⟩ [] 3).result.errorCode =
      some "PRINT_ERROR" ∧
    (printLabel ⟨"Zebra_GK420d", "/home/user/Documents/label.zpl", true, "11.10.",
        Except.ok ("request id is Zebra_GK420d-1 (1 file(s))", "")⟩ [] 3).result.errorCode ≠
      some "FILE_NOT_FOUND" := by
  decide

/-- C1 (amended): for every copies value, when the configured label file does
not exist, `printLabel` fails with exactly one print-operation record with
success false; the error code is `FILE_NOT_FOUND` when auto-date-update is
disabled, but `PRINT_ERROR` when it is enabled (the date-update read throws
first and the outer catch classifies it). -/
theorem C1_missing_label_file (env : PrintEnv) (fs : FS) (copies : Nat)
    (h : fsLookup fs env.labelPath = none) :
    (printLabel env fs copies).result.success = false ∧
    (printLabel env fs copies).result.errorCode =
      some (if env.autoUpdateDate then "PRINT_ERROR" else "FILE_NOT_FOUND") ∧
    (printLabel env fs copies).printOps =
      [⟨env.printerName, copies, false,
        some (if env.autoUpdateDate then enoentMessage env.labelPath
              else "FILE_NOT_FOUND")⟩] := by
  by_cases hA : env.autoUpdateDate <;> simp [printLabel, h, hA]

/-- C1 witness: a concrete configuration with auto-date-update disabled and
an empty file system, printed three times. -/
theorem C1_missing_label_file_witness :
    (printLabel ⟨"Zebra_GK420d", "/home/user/Documents/label.zpl", false, "11.10.",
        Except.ok ("request id is Zebra_GK420d-1 (1 file(s))", "")⟩ [] 3).result.success = false ∧
    (printLabel ⟨"Zebra_GK420d", "/home/user/Documents/label.zpl", false, "11.10.",
        Except.ok ("request id is Zebra_GK420d-1 (1 file(s))", "")⟩ [] 3).result.errorCode =
      some "FILE_NOT_FOUND" := by
  have h := C1_missing_label_file
    ⟨"Zebra_GK420d", "/home/user/Documents/label.zpl", false, "11.10.",
      Except.ok ("request id is Zebra_GK420d-1 (1 file(s))", "")⟩ [] 3 rfl
  exact ⟨h.1, by simpa using h.2.1⟩

/-- C2 counterexample: a complete, successful `testPrint` run produces zero
print-operation records — `testPrint` never calls `logPrintOperation`,
contradicting the claim that every printing operation logs one. -/
theorem C2_counterexample :
    (testPrint ⟨"Zebra_GK420d", "1/1/2025, 10:00:00 AM", "/tmp",
        Except.ok ("request id is Zebra_GK420d-1 (1 file(s))", "")⟩ []).result.success = true ∧
    (testPrint ⟨"Zebra_GK420d", "1/1/2025, 10:00:00 AM", "/tmp",
        Except.ok ("request id is Zebra_GK420d-1 (1 file(s))", "")⟩ []).printOps = [] := by
  decide

/-- C2 (amended): `printLabel` produces exactly one structured
print-operation record on every execution path, whatever the outcome;
`testPrint` produces none on any path. -/
theorem C2_print_operation_logging (env : PrintEnv) (fs : FS) (copies : Nat)
    (env2 : TestPrintEnv) (fs2 : FS) :
    (printLabel env fs copies).printOps.length = 1 ∧
    (testPrint env2 fs2).printOps = [] := by
  constructor
  · by_cases hA : env.autoUpdateDate <;>
      simp only [printLabel, hA, if_true, Bool.false_eq_true, if_false] <;>
      repeat' split
    all_goals rfl
  · simp only [testPrint]
    repeat' split
    all_goals rfl

/-- C7 counterexample: when the `lp` command rejects (non-zero exit), control
jumps to the `catch` before `fs.unlinkSync` runs, so the temporary label file
is left behind — the claim that it is deleted regardless of outcome fails. -/
theorem C7_counterexample :
    fsLookup (testPrint ⟨"Zebra_GK420d", "1/1/2025, 10:00:00 AM", "/tmp",
        Except.error "Command failed: lp -n 1"⟩ []).fs
      (pathJoin "/tmp" "test-label.zpl") ≠ none ∧
    (testPrint ⟨"Zebra_GK420d", "1/1/2025, 10:00:00 AM", "/tmp",
        Except.error "Command failed: lp -n 1"⟩ []).result.errorCode =
      some "TEST_PRINT_ERROR" := by
  decide

/-- C7 (amended): `testPrint` deletes its temporary label file whenever the
print command resolves — including the failure classified `TEST_PRINT_FAILED`
from a non-empty error stream — but when the command rejects, the `catch`
returns `TEST_PRINT_ERROR` without reaching the delete call and the
temporary file survives with the synthesized payload. -/
theorem C7_testPrint_temp_file (env : TestPrintEnv) (fs : FS) :
    (∀ out err, env.execPrint = Except.ok (out, err) →
      fsLookup (testPrint env fs).fs (tempPathOf env) = none) ∧
    (∀ e, env.execPrint = Except.error e →
      fsLookup (testPrint env fs).fs (tempPathOf env) =
        some (testLabelContent env.printerName env.timestamp) ∧
      (testPrint env fs).result.errorCode = some "TEST_PRINT_ERROR") := by
  constructor
  · intro out err hexec
    simp only [testPrint, hexec]
    split <;> simp [fsLookup_fsRemove_self]
  · intro e hexec
    simp only [testPrint, hexec]
    exact ⟨fsLookup_fsWrite_self _ _ _, trivial⟩

/-- C7 witness: the temp file is gone after a resolved command and still
present (with the `TEST_PRINT_ERROR` classification) after a rejected one. -/
theorem C7_testPrint_temp_file_witness :
    fsLookup (testPrint ⟨"Zebra_GK420d", "1/1/2025, 10:00:00 AM", "/tmp",
        Except.ok ("request id is Zebra_GK420d-1", "")⟩ []).fs
      (tempPathOf ⟨"Zebra_GK420d", "1/1/2025, 10:00:00 AM", "/tmp",
        Except.ok ("request id is Zebra_GK420d-1", "")⟩) = none ∧
    (testPrint ⟨"Zebra_GK420d", "1/1/2025, 10:00:00 AM", "/tmp",
        Except.error "Command failed: lp"⟩ []).result.errorCode =
      some "TEST_PRINT_ERROR" :=
  ⟨(C7_testPrint_temp_file _ _).1 _ _ rfl, ((C7_testPrint_temp_file _ _).2 _ rfl).2⟩

theorem parsedPrinters_status_ne_error (p d : Except String String) (pr : Printer)
    (h : pr ∈ parsedPrinters p d) : pr.status ≠ "error" := by
  simp only [parsedPrinters, List.mem_map, List.mem_filterMap] at h
  obtain ⟨pair, ⟨line, _, hparse⟩, rfl⟩ := h
  exact parsePrinterLine_status_ne_error line pair.1 pair.2 (by simpa using hparse)

/-- C3 counterexample: on total command failure (both `lpstat` calls and the
Zebra probe reject), every failure is swallowed by an inner catch, parsing
yields zero printers, the probe contributes nothing, and `listPrinters`
returns the no-printers sentinel — not the distinct `Error detecting
printers` sentinel the claim asserts for total command failure. -/
theorem C3_counterexample :
    listPrinters (Except.error "Command failed: lpstat -p")
        (Except.error "Command failed: lpstat -d")
        (Except.error "Command failed: lpstat -p Zebra") =
      [noPrintersSentinel] ∧
    noPrintersSentinel ≠ errorSentinel := by
  decide

/-- C3 (amended): `listPrinters` is total and never returns an empty list;
the `Error detecting printers` sentinel never appears in its result (it
belongs to the outer exception handler, which no command failure reaches,
since each command failure is swallowed by an inner catch); and when parsing
yields zero printers and the hardcoded Zebra probe also fails, the result is
exactly the single no-printers sentinel. -/
theorem C3_listPrinters_amended (p d z : Except String String) :
    listPrinters p d z ≠ [] ∧
    errorSentinel ∉ listPrinters p d z ∧
    (parsedPrinters p d = [] → ∀ e, z = Except.error e →
      listPrinters p d z = [noPrintersSentinel]) := by
  refine ⟨?_, ?_, ?_⟩
  · unfold listPrinters
    by_cases hp : (parsedPrinters p d).isEmpty
    · rw [if_pos hp]
      by_cases hz : (zebraProbeResult z).isEmpty
      · rw [if_pos hz]
        simp
      · rw [if_neg hz]
        intro hnil
        rw [hnil] at hz
        simp at hz
    · rw [if_neg hp]
      intro hnil
      rw [hnil] at hp
      simp at hp
  · intro hmem
    unfold listPrinters at hmem
    by_cases hp : (parsedPrinters p d).isEmpty
    · rw [if_pos hp] at hmem
      by_cases hz : (zebraProbeResult z).isEmpty
      · rw [if_pos hz] at hmem
        revert hmem
        decide
      · rw [if_neg hz] at hmem
        rcases z with e | out
        · simp [zebraProbeResult] at hmem
        · simp only [zebraProbeResult] at hmem
          split_ifs at hmem <;> simp only [List.mem_singleton, List.not_mem_nil] at hmem <;>
            exact absurd hmem (by decide)
    · rw [if_neg hp] at hmem
      exact parsedPrinters_status_ne_error p d errorSentinel hmem rfl
  · intro hparsed e hz
    subst hz
    simp [listPrinters, hparsed, zebraProbeResult]

/-- C3 witness: the amended theorem applied to three concrete rejected
commands. -/
theorem C3_listPrinters_witness :
    listPrinters (Except.error "spawn lpstat ENOENT")
        (Except.error "spawn lpstat ENOENT") (Except.error "spawn lpstat ENOENT") =
      [noPrintersSentinel] :=
  (C3_listPrinters_amended _ _ _).2.2 (by decide) _ rfl

theorem deepMerge_label_patch (g lf : JFields)
    (hg : lookupJ g "label" = some (.obj lf)) :
    deepMerge (.obj g) autoUpdateFalsePatch =
      .obj (setKey g "label" (.obj (setKey lf "autoUpdateDate" (.bool false)))) := by
  simp [autoUpdateFalsePatch, deepMerge, mergeLoop, hg]

/-- C6: for every stored full settings record (all four top-level keys
present, label an object with a `filePath` field, keys well-formed),
`update({label: {autoUpdateDate: false}})` persists a record in which the
`printer`, `security` and `ui` subtrees and `label.filePath` are unchanged,
`label.autoUpdateDate` is `false`, and every other `label` field is looked up
exactly as before. -/
theorem C6_update_autoUpdateDate_frame (documentsPath : String) (fs lf : JFields)
    (pv sv uv fp : JVal)
    (hnd : (keysJ fs).Nodup)
    (hP : lookupJ fs "printer" = some pv)
    (hS : lookupJ fs "security" = some sv)
    (hU : lookupJ fs "ui" = some uv)
    (hL : lookupJ fs "label" = some (.obj lf))
    (hF : lookupJ lf "filePath" = some fp) :
    memberJ (settingsUpdate documentsPath (Except.ok (.obj fs)) autoUpdateFalsePatch)
      "printer" = pv ∧
    memberJ (settingsUpdate documentsPath (Except.ok (.obj fs)) autoUpdateFalsePatch)
      "security" = sv ∧
    memberJ (settingsUpdate documentsPath (Except.ok (.obj fs)) autoUpdateFalsePatch)
      "ui" = uv ∧
    ∃ lf2,
      memberJ (settingsUpdate documentsPath (Except.ok (.obj fs)) autoUpdateFalsePatch)
        "label" = .obj lf2 ∧
      lookupJ lf2 "autoUpdateDate" = some (.bool false) ∧
      lookupJ lf2 "filePath" = some fp ∧
      ∀ k, k ≠ "autoUpdateDate" → lookupJ lf2 k = lookupJ lf k := by
  have hmerged : settingsUpdate documentsPath (Except.ok (.obj fs)) autoUpdateFalsePatch =
      .obj (setKey (spread2 (defaultFields documentsPath) fs) "label"
        (.obj (setKey lf "autoUpdateDate" (.bool false)))) := by
    unfold settingsUpdate getAllSettings
    exact deepMerge_label_patch _ lf (lookupJ_spread2_mem _ fs _ _ hL hnd)
  rw [hmerged]
  simp only [memberJ]
  refine ⟨?_, ?_, ?_,
    ⟨setKey lf "autoUpdateDate" (.bool false), ?_, ?_, ?_, ?_⟩⟩
  · rw [lookupJ_setKey_ne _ _ _ _ (by decide),
      lookupJ_spread2_mem _ fs _ _ hP hnd]
    rfl
  · rw [lookupJ_setKey_ne _ _ _ _ (by decide),
      lookupJ_spread2_mem _ fs _ _ hS hnd]
    rfl
  · rw [lookupJ_setKey_ne _ _ _ _ (by decide),
      lookupJ_spread2_mem _ fs _ _ hU hnd]
    rfl
  · rw [lookupJ_setKey_self]
    rfl
  · exact lookupJ_setKey_self lf "autoUpdateDate" (.bool false)
  · rw [lookupJ_setKey_ne lf _ _ _ (by decide)]
    exact hF
  · intro k hk
    exact lookupJ_setKey_ne lf _ _ _ hk

/-- C6 witness: the frame property applied to a concrete full stored record;
the persisted `security` subtree and `label.filePath` are unchanged while
`label.autoUpdateDate` is now false. -/
theorem C6_update_autoUpdateDate_frame_witness :
    memberJ (settingsUpdate "/home/user/Documents" (Except.ok (.obj storedFsExample))
      autoUpdateFalsePatch) "security" = .obj (.ofList [("pin", .str "4321")]) ∧
    memberJ (memberJ (settingsUpdate "/home/user/Documents" (Except.ok (.obj storedFsExample))
      autoUpdateFalsePatch) "label") "filePath" = .str "/home/user/Documents/label.zpl" ∧
    memberJ (memberJ (settingsUpdate "/home/user/Documents" (Except.ok (.obj storedFsExample))
      autoUpdateFalsePatch) "label") "autoUpdateDate" = .bool false := by
  have h := C6_update_autoUpdateDate_frame "/home/user/Documents" storedFsExample
    storedLabelExample _ _ _ _ (by decide) rfl rfl rfl rfl rfl
  obtain ⟨hPr, hSe, hUi, lf2, hLb, hAud, hFp, _⟩ := h
  refine ⟨hSe, ?_, ?_⟩
  · rw [hLb]
    simp only [memberJ, hFp]
    rfl
  · rw [hLb]
    simp only [memberJ, hAud]
    rfl

end DateStamp
